import Mathlib

/-!
Shallow embedding of the SamplePackAgent SFX pipeline
(`sfx_agent/post_processor.py`, `sfx_agent/runner.py`, `sfx_agent/config.py`,
`sfx_agent/composer.py`, `sfx_agent/library.py`).

Python floats that carry dB / LUFS values are modelled as an extended
rational (`Loudness`): the code only ever distinguishes "negative infinity"
(silence) from finite values.  External collaborators (pydub decoding,
pyloudnorm metering, the ElevenLabs generator, the Gemma decomposer, the
filesystem) are modelled as oracle functions supplied in an environment
record; the control flow, arithmetic, and error handling of the repository
code are embedded faithfully.  Python exceptions are modelled as values of
`PyExc`; a function that can raise returns `Except PyExc _`.
-/

namespace SfxAgent

/-- An extended dB/LUFS value: either negative infinity (Python `-inf`,
produced for silent audio) or a finite rational. -/
inductive Loudness where
  | negInf : Loudness
  | finite : ℚ → Loudness
deriving DecidableEq, Repr

/-- Python exception values that flow through the pipeline.  Each constructor
is one exception class the source raises or catches:  `fileNotFoundError` and
`typeError` and `keyError` are builtins, `configError` is
`config.ConfigError`, `postProcessingError` is
`post_processor.PostProcessingError` (the single class defined there), and
`otherError` stands for any other `Exception`. -/
inductive PyExc where
  | fileNotFoundError (msg : String)
  | configError (msg : String)
  | typeError (msg : String)
  | keyError (key : String)
  | valueError (msg : String)
  | postProcessingError (msg : String)
  | otherError (msg : String)
deriving DecidableEq, Repr

/-- The Python class name of an exception value: this is what a caller
distinguishing failures "by type" can observe. -/
def PyExc.tag : PyExc → String
  | .fileNotFoundError _ => "FileNotFoundError"
  | .configError _ => "ConfigError"
  | .typeError _ => "TypeError"
  | .keyError _ => "KeyError"
  | .valueError _ => "ValueError"
  | .postProcessingError _ => "PostProcessingError"
  | .otherError _ => "Exception"

/-- `str(e)` for an exception value (Python renders `KeyError` as the
quoted key). -/
def PyExc.msg : PyExc → String
  | .fileNotFoundError m => m
  | .configError m => m
  | .typeError m => m
  | .keyError k => "'" ++ k ++ "'"
  | .valueError m => m
  | .postProcessingError m => m
  | .otherError m => m

/-- A filesystem path, split the way `pathlib.Path` exposes it to the code:
parent directory, stem, and suffix (the suffix includes the dot). -/
structure FPath where
  dir : String
  stem : String
  suffix : String
deriving DecidableEq, Repr

/-- `str(path)`. -/
def FPath.toStr (p : FPath) : String := p.dir ++ "/" ++ p.stem ++ p.suffix

/-! ## Post-processor (`sfx_agent/post_processor.py`) -/

/-- A decoded `pydub.AudioSegment`: channel count, sample width in bytes,
frame rate, the raw integer sample buffer (`get_array_of_samples`), and the
segment's own peak accessor `max_dBFS` (a dB value that is `-inf` for a
silent segment). -/
structure Audio where
  channels : ℕ
  sampleWidth : ℕ
  frameRate : ℕ
  samples : List ℤ
  maxDBFS : Loudness
deriving DecidableEq, Repr

/-- External audio operations used by `process_audio`: pydub's
`set_channels(2)` downmix, pyloudnorm's BS.1770 integrated-loudness meter
(given frame rate, channel count and the scaled float buffer), and pydub's
`apply_gain`. -/
structure PPEnv where
  downmix : Audio → Audio
  meter : ℕ → ℕ → List ℚ → Loudness
  applyGain : Audio → ℚ → Audio

/-- Outcome of `AudioSegment.from_file`: success, a `CouldntDecodeError`,
or any other loading exception. -/
inductive LoadResult where
  | ok (a : Audio)
  | couldntDecode (msg : String)
  | otherError (msg : String)
deriving DecidableEq, Repr

/-- An on-disk audio file as `process_audio` observes it: its path, whether
it exists, and what decoding it yields. -/
structure AudioFile where
  path : FPath
  fileExists : Bool
  load : LoadResult
deriving DecidableEq, Repr

/-- The `results` dictionary built by `process_audio`.  Fields initialised
to `None` in the source are `Option`-valued here. -/
structure PPResults where
  original_lufs : Option Loudness
  original_peak_dbfs : Option Loudness
  target_lufs : ℚ
  gain_applied_db : ℚ
  clipping_prevented : Bool
  normalized_lufs : Option Loudness
  normalized_peak_dbfs : Option Loudness
  output_path : Option FPath
deriving DecidableEq, Repr

/-- Scaling of the integer sample buffer into float amplitudes, exactly as
in `process_audio` step 2: 16-bit divides by `2^15`, 32-bit divides by
`2^31`, unsigned 8-bit is mapped by `s ↦ (s / 2^8) * 2 - 1`, any other
width is passed through unscaled. -/
def scaleSamples (width : ℕ) (samples : List ℤ) : List ℚ :=
  if width = 2 then samples.map (fun s => (s : ℚ) / 2 ^ 15)
  else if width = 4 then samples.map (fun s => (s : ℚ) / 2 ^ 31)
  else if width = 1 then samples.map (fun s => ((s : ℚ) / 2 ^ 8) * 2 - 1)
  else samples.map (fun s => (s : ℚ))

/-- Output-path selection of `process_audio` step 8: overwrite the input,
or write `<stem>_norm<suffix>` into `output_dir` (when given) or the
source's own directory. -/
def outPath (raw : FPath) (output_dir : Option String) (overwrite_original : Bool) : FPath :=
  if overwrite_original then raw
  else
    match output_dir with
    | some d => ⟨d, raw.stem ++ "_norm", raw.suffix⟩
    | none => ⟨raw.dir, raw.stem ++ "_norm", raw.suffix⟩

/-- Steps 2–8 of `process_audio`, applied to the (possibly downmixed)
segment: scale samples, measure loudness and peak, branch on silence,
compute/clamp gain, apply gain, re-measure, and fill the results dict.
The final `export` call is modelled as always succeeding. -/
def processLoaded (env : PPEnv) (audio : Audio) (target_lufs : ℚ)
    (output_dir : Option String) (overwrite_original : Bool) (rawPath : FPath) :
    PPResults :=
  let samples := scaleSamples audio.sampleWidth audio.samples
  let original_lufs := env.meter audio.frameRate audio.channels samples
  let original_peak := audio.maxDBFS
  let output_path := outPath rawPath output_dir overwrite_original
  match original_lufs with
  | .negInf =>
      -- silence: gain 0, normalized metrics copied from the originals,
      -- `apply_gain` is never invoked
      { original_lufs := some .negInf
        original_peak_dbfs := some original_peak
        target_lufs := target_lufs
        gain_applied_db := 0
        clipping_prevented := false
        normalized_lufs := some .negInf
        normalized_peak_dbfs := some original_peak
        output_path := some output_path }
  | .finite L0 =>
      let gain_to_target_db := target_lufs - L0
      -- `predicted_peak = original_peak_dbfs + gain_to_target_db`; in
      -- Python float arithmetic `-inf + g = -inf`, which is never `> 0`
      let gainFlag : ℚ × Bool :=
        match original_peak with
        | .negInf => (gain_to_target_db, false)
        | .finite P0 =>
            if P0 + gain_to_target_db > 0 then (-P0, true)
            else (gain_to_target_db, false)
      let gain_applied_db := gainFlag.1
      let clipping_prevented := gainFlag.2
      let normalized_audio := env.applyGain audio gain_applied_db
      let norm_samples := scaleSamples normalized_audio.sampleWidth normalized_audio.samples
      let normalized_lufs :=
        env.meter normalized_audio.frameRate normalized_audio.channels norm_samples
      let normalized_peak := normalized_audio.maxDBFS
      { original_lufs := some (.finite L0)
        original_peak_dbfs := some original_peak
        target_lufs := target_lufs
        gain_applied_db := gain_applied_db
        clipping_prevented := clipping_prevented
        normalized_lufs := some normalized_lufs
        normalized_peak_dbfs := some normalized_peak
        output_path := some output_path }

/-- `process_audio(raw_audio_path, target_lufs, output_dir,
overwrite_original)`: existence check, decode, channel handling
(`> 2` downmixes, `elif == 0` raises), then `processLoaded`. -/
def process_audio (env : PPEnv) (f : AudioFile) (target_lufs : ℚ)
    (output_dir : Option String) (overwrite_original : Bool) :
    Except PyExc PPResults :=
  if !f.fileExists then
    .error (.fileNotFoundError ("Raw audio file not found: " ++ f.path.toStr))
  else
    match f.load with
    | .couldntDecode _ =>
        .error (.postProcessingError
          ("Failed to decode audio file: " ++ f.path.toStr ++
            ". Ensure it's a valid format and ffmpeg is installed."))
    | .otherError m =>
        .error (.postProcessingError
          ("Error loading audio file " ++ f.path.toStr ++ ": " ++ m))
    | .ok audio0 =>
        if audio0.channels > 2 then
          .ok (processLoaded env (env.downmix audio0) target_lufs output_dir
            overwrite_original f.path)
        else if audio0.channels = 0 then
          .error (.postProcessingError
            ("Audio file " ++ f.path.toStr ++ " has 0 channels."))
        else
          .ok (processLoaded env audio0 target_lufs output_dir
            overwrite_original f.path)

/-! ## Python values (YAML config contents, decomposer JSON output) -/

/-- A Python value as produced by `yaml.load` or `json.loads`: the shapes
the config loader and the runner inspect. -/
inductive PyVal where
  | str (s : String)
  | num (q : ℚ)
  | bool (b : Bool)
  | nullV
  | list (xs : List PyVal)
  | map (kvs : List (String × PyVal))

/-- Smallest exponent `k ≤ 30` with `den ∣ 10^k`, if any: used to render a
rational with a finite decimal expansion the way Python prints a float. -/
def decExp (den : ℕ) : Option ℕ :=
  (List.range 31).find? (fun k => (10 ^ k : ℕ) % den == 0)

/-- Digits of the fractional part, left-padded to width `k` and with
trailing zeros stripped (Python prints `1.2`, not `1.20`). -/
def fracDigits (k frac : ℕ) : String :=
  let padded := String.mk (List.replicate (k - (toString frac).length) '0') ++ toString frac
  let stripped := String.mk (padded.data.reverse.dropWhile (· = '0')).reverse
  if stripped = "" then "0" else stripped

/-- `str(x)` for a Python float holding the rational `q` (finite decimal
expansions only; other rationals are rendered as a fraction). -/
def ratToStr (q : ℚ) : String :=
  if q.den = 1 then toString q.num ++ ".0"
  else
    match decExp q.den with
    | some k =>
        let scaled : ℤ := q.num * (10 ^ k) / (q.den : ℤ)
        let a := scaled.natAbs
        (if q.num < 0 then "-" else "") ++
          toString (a / 10 ^ k) ++ "." ++ fracDigits k (a % 10 ^ k)
    | none => toString q.num ++ "/" ++ toString q.den

/-- `f"{q:.2f}"`: fixed two-decimal formatting with round-half-to-even,
as used in every per-variation log/error message of the runner. -/
def fmt2 (q : ℚ) : String :=
  let r := q * 100
  let f : ℤ := ⌊r⌋
  let n : ℤ :=
    if r - f > 1 / 2 then f + 1
    else if r - f < 1 / 2 then f
    else if f % 2 = 0 then f else f + 1
  let a := n.natAbs
  (if n < 0 then "-" else "") ++ toString (a / 100) ++ "." ++
    (if a % 100 < 10 then "0" else "") ++ toString (a % 100)

/-- `repr(value)` for a Python value (containers render their elements
with `repr`). -/
def pyRepr : PyVal → String
  | .str s => "'" ++ s ++ "'"
  | .num q => ratToStr q
  | .bool b => if b then "True" else "False"
  | .nullV => "None"
  | .list xs =>
      "[" ++ String.intercalate ", "
        (xs.attach.map (fun ⟨x, _⟩ => pyRepr x)) ++ "]"
  | .map kvs =>
      "\x7b" ++ String.intercalate ", "
        (kvs.attach.map (fun ⟨kv, _⟩ => "'" ++ kv.1 ++ "': " ++ pyRepr kv.2)) ++ "\x7d"
decreasing_by
  · simp_wf
    have := List.sizeOf_lt_of_mem (by assumption : x ∈ xs)
    omega
  · simp_wf
    have h1 := List.sizeOf_lt_of_mem (by assumption : kv ∈ kvs)
    cases kv with
    | mk k v => simp at h1 ⊢; omega

/-- `str(value)`: identical to `repr` except on strings themselves. -/
def pyStr : PyVal → String
  | .str s => s
  | v => pyRepr v

/-- `float(x)` on a Python value: numbers pass through, booleans become
0/1, strings are parsed as (decimal) float literals or raise `ValueError`,
and non-numeric types raise `TypeError`. -/
def pyFloat (v : PyVal) : Except PyExc ℚ :=
  match v with
  | .num q => .ok q
  | .bool b => .ok (if b then 1 else 0)
  | .str s =>
      match parseDecimal s with
      | some q => .ok q
      | none => .error (.valueError ("could not convert string to float: '" ++ s ++ "'"))
  | .nullV => .error (.typeError "float() argument must be a string or a real number, not 'NoneType'")
  | .list _ => .error (.typeError "float() argument must be a string or a real number, not 'list'")
  | .map _ => .error (.typeError "float() argument must be a string or a real number, not 'dict'")
where
  /-- Decimal float literal parser (`[sign] digits [. digits]`, surrounding
  whitespace stripped as `float` does); exponent and `inf`/`nan` spellings
  are outside the configs this pipeline reads. -/
  parseDecimal (s : String) : Option ℚ :=
    let cs := ((s.data.dropWhile (·.isWhitespace)).reverse.dropWhile
      (·.isWhitespace)).reverse
    let (sign, cs) : ℚ × List Char :=
      match cs with
      | '-' :: rest => (-1, rest)
      | '+' :: rest => (1, rest)
      | _ => (1, cs)
    let digitsVal (ds : List Char) : Option ℕ :=
      if ds.all (·.isDigit) then
        some (ds.foldl (fun n c => 10 * n + (c.toNat - '0'.toNat)) 0)
      else none
    match cs.splitOn '.' with
    | [intPart] =>
        if intPart.isEmpty then none
        else (digitsVal intPart).map (fun n => sign * n)
    | [intPart, fracPart] =>
        if intPart.isEmpty && fracPart.isEmpty then none
        else do
          let i ← digitsVal intPart
          let f ← digitsVal fracPart
          pure (sign * ((i : ℚ) + (f : ℚ) / 10 ^ fracPart.length))
    | _ => none

/-- A Python dict with string keys, as an insertion-ordered association
list (the decomposer's structured params, YAML mappings). -/
abbrev Params := List (String × PyVal)

/-- `key in d`. -/
def hasKey (p : Params) (k : String) : Bool := p.any (·.1 == k)

/-- `d.get(key, default)`. -/
def getParam (p : Params) (k : String) (d : PyVal) : PyVal :=
  match p.find? (·.1 == k) with
  | some kv => kv.2
  | none => d

/-- `d[key]`, raising `KeyError` when absent. -/
def getItem (p : Params) (k : String) : Except PyExc PyVal :=
  match p.find? (·.1 == k) with
  | some kv => .ok kv.2
  | none => .error (.keyError k)

/-- `d[key] = value` on a dict: replaces in place, or appends a new key at
the end (Python dicts preserve insertion order). -/
def setParam (p : Params) (k : String) (v : PyVal) : Params :=
  if hasKey p k then p.map (fun kv => if kv.1 == k then (k, v) else kv)
  else p ++ [(k, v)]

/-! ## Configuration (`sfx_agent/config.py`) -/

/-- `needle.isPrefixOf`-based substring test on character lists. -/
def subOccurs (needle : List Char) : List Char → Bool
  | [] => needle.isEmpty
  | c :: rest => needle.isPrefixOf (c :: rest) || subOccurs needle rest

/-- Python `needle in hay` for strings: substring containment. -/
def strHasSub (hay needle : String) : Bool := subOccurs needle.data hay.data

/-- Python `key in v`: key membership for dicts, element membership for
lists, substring test for strings, and `TypeError` for non-iterables
(numbers, booleans, `None`). -/
def pyContains (v : PyVal) (key : String) : Except PyExc Bool :=
  match v with
  | .map kvs => .ok (kvs.any (·.1 == key))
  | .list xs =>
      .ok (xs.any (fun x => match x with | .str s => s == key | _ => false))
  | .str s => .ok (strHasSub s key)
  | _ => .error (.typeError "argument of type is not iterable")

/-- Python `v[key]` with a string key: dict lookup (`KeyError` when
absent); lists and strings reject string indices with `TypeError`, other
values are not subscriptable. -/
def pyGetItemV (v : PyVal) (key : String) : Except PyExc PyVal :=
  match v with
  | .map kvs =>
      match kvs.find? (·.1 == key) with
      | some kv => .ok kv.2
      | none => .error (.keyError key)
  | .list _ => .error (.typeError "list indices must be integers or slices, not str")
  | .str _ => .error (.typeError "string indices must be integers")
  | _ => .error (.typeError "object is not subscriptable")

/-- `self._cfg[section][key]`. -/
def cfgLookup2 (v : PyVal) (s k : String) : Except PyExc PyVal := do
  pyGetItemV (← pyGetItemV v s) k

/-- The `required` table of `Config._validate`. -/
def requiredConfig : List (String × List String) :=
  [("elevenlabs", ["voice", "model"]),
   ("gemma", ["model"]),
   ("output", ["folder", "file_format"]),
   ("prompt", ["default_duration", "prompt_influence", "batch_influences"]),
   ("processing", ["target_lufs"]),
   ("library", ["path"]),
   ("logging", ["level"])]

/-- `[float(x) for x in xs]`: sequential conversion, first failure
raises. -/
def floatList : List PyVal → Except PyExc (List ℚ)
  | [] => .ok []
  | x :: rest => do
      let q ← pyFloat x
      let qs ← floatList rest
      .ok (q :: qs)

/-- The body of `_validate` step 3 before its `except` clauses: float-check
the three numeric entries, then check `batch_influences` is a list and
(when non-empty) that every element converts to float. -/
def validateTypesInner (v : PyVal) : Except PyExc Unit := do
  let _ ← pyFloat (← cfgLookup2 v "prompt" "default_duration")
  let _ ← pyFloat (← cfgLookup2 v "prompt" "prompt_influence")
  let _ ← pyFloat (← cfgLookup2 v "processing" "target_lufs")
  match ← cfgLookup2 v "prompt" "batch_influences" with
  | .list xs =>
      if xs.isEmpty then pure ()   -- logged as a warning only
      else do
        let _ ← floatList xs
        pure ()
  | _ => .error (.configError "prompt.batch_influences must be a list")

/-- `_validate` step 3 with its `except` clauses: `ValueError` becomes
"Invalid numeric value", `KeyError` becomes "Unexpected missing key", a
`ConfigError` is re-raised as is, and anything else becomes "Error during
type validation". -/
def validateTypes (v : PyVal) : Except PyExc Unit :=
  match validateTypesInner v with
  | .ok _ => .ok ()
  | .error (.valueError m) =>
      .error (.configError ("Invalid numeric value in config: " ++ m))
  | .error (.keyError k) =>
      .error (.configError ("Unexpected missing key during type validation: '" ++ k ++ "'"))
  | .error (.configError m) => .error (.configError m)
  | .error e => .error (.configError ("Error during type validation: " ++ e.msg))

/-- `Config._validate`: section presence (note that the `in` test raises
`TypeError` on a non-iterable top-level value, outside any handler), key
presence, numeric type checks, and the two string checks. -/
def validate (v : PyVal) : Except PyExc Unit := do
  let present ← requiredConfig.mapM
    (fun sk => (pyContains v sk.1).map (fun b => (sk.1, b)))
  let missingSections := (present.filter (fun p => !p.2)).map (·.1)
  if !missingSections.isEmpty then
    .error (.configError
      ("Missing required config sections: " ++ String.intercalate ", " missingSections))
  else do
    let missingKeys ← requiredConfig.foldlM
      (fun acc sk => do
        match ← pyGetItemV v sk.1 with
        | .map kvs =>
            pure (acc ++ (sk.2.filter (fun k =>
              match kvs.find? (·.1 == k) with
              | some kv => match kv.2 with | .nullV => true | _ => false
              | none => true)).map (fun k => sk.1 ++ "." ++ k))
        | _ =>
            .error (.configError
              ("Config section '" ++ sk.1 ++ "' is not a dictionary/mapping.")))
      []
    if !missingKeys.isEmpty then
      .error (.configError
        ("Missing required config entries: " ++ String.intercalate ", " missingKeys))
    else do
      validateTypes v
      match ← cfgLookup2 v "library" "path" with
      | .str _ =>
          match ← cfgLookup2 v "logging" "level" with
          | .str _ => pure ()
          | _ => .error (.configError "logging.level must be a string")
      | _ => .error (.configError "library.path must be a string")

/-- What loading the config file yields: the file is absent, YAML parsing
fails, or parsing produces a Python value (`nullV` for an empty file). -/
inductive FileState where
  | missing
  | unparseable (msg : String)
  | content (v : PyVal)

/-- The `Config` fields the orchestrator reads, resolved from the validated
YAML value by the corresponding properties (`default_duration`,
`prompt_influence`, `batch_influences` with its defensive empty-list
fallback, `target_lufs`, `output.folder`, `library.path`).  Path values
keep the configured strings; filesystem resolution stays in the world
model. -/
structure Cfg where
  defaultDuration : ℚ
  promptInfluence : ℚ
  batchInfluences : List ℚ
  targetLufs : ℚ
  outputFolder : String
  libraryPath : String
deriving DecidableEq, Repr

/-- A numeric property: validation has ensured the conversion succeeds, so
the default is unreachable. -/
def ratProp (v : PyVal) (s k : String) : ℚ :=
  (((cfgLookup2 v s k).bind pyFloat).toOption).getD 0

/-- A string property; validation has ensured the entry is a string. -/
def strProp (v : PyVal) (s k : String) : String :=
  match (cfgLookup2 v s k).toOption with
  | some (.str s) => s
  | _ => ""

/-- The `batch_influences` property: convert every entry to float,
defensively returning `[]` if conversion fails. -/
def batchInfluencesProp (v : PyVal) : List ℚ :=
  match (cfgLookup2 v "prompt" "batch_influences").toOption with
  | some (.list xs) =>
      match floatList xs with
      | .ok fs => fs
      | .error _ => []
  | _ => []

/-- `Config.__init__`: existence check (`FileNotFoundError`), YAML load
(failures and empty file wrapped as `ConfigError`), then `_validate` —
which runs OUTSIDE the load's `try`/`except`, so its `TypeError` escapes
uncaught — and finally the property views packaged as `Cfg`. -/
def mkConfig (fs : FileState) : Except PyExc Cfg :=
  match fs with
  | .missing => .error (.fileNotFoundError "Config file not found")
  | .unparseable m =>
      .error (.configError ("Error loading or parsing config file: " ++ m))
  | .content v =>
      match v with
      | .nullV =>
          .error (.configError "Error loading or parsing config file: Config file is empty")
      | _ => do
          validate v
          .ok { defaultDuration := ratProp v "prompt" "default_duration"
                promptInfluence := ratProp v "prompt" "prompt_influence"
                batchInfluences := batchInfluencesProp v
                targetLufs := ratProp v "processing" "target_lufs"
                outputFolder := strProp v "output" "folder"
                libraryPath := strProp v "library" "path" }

/-! ## Composer (`sfx_agent/composer.py`) -/

/-- `compose_prompt(params)` with the default template
`"{source}: a {timbre} sound; {dynamics}, {duration}s, {pitch}; {space};
like {analogy}."`.  The keyword arguments of `tpl.format` are evaluated in
call order, each a `params[...]` lookup that raises `KeyError` when the
field is absent; formatting substitutes `str(value)`. -/
def compose_prompt (params : Params) : Except PyExc String := do
  let source ← getItem params "source"
  let timbre ← getItem params "timbre"
  let dynamics ← getItem params "dynamics"
  let duration ← getItem params "duration"
  let pitch ← getItem params "pitch"
  let space ← getItem params "space"
  let analogy ← getItem params "analogy"
  .ok (pyStr source ++ ": a " ++ pyStr timbre ++ " sound; " ++ pyStr dynamics ++
    ", " ++ pyStr duration ++ "s, " ++ pyStr pitch ++ "; " ++ pyStr space ++
    "; like " ++ pyStr analogy ++ ".")

/-! ## Library store (`sfx_agent/library.py`) -/

/-- `data.setdefault(brief, []).extend(results)` on an insertion-ordered
dict keyed by brief: extend the brief's list in place, or add the brief at
the end with exactly `results`. -/
def setdefaultExtend {α : Type} :
    List (String × List α) → String → List α → List (String × List α)
  | [], b, rs => [(b, rs)]
  | kv :: rest, b, rs =>
      if kv.1 = b then (kv.1, kv.2 ++ rs) :: rest
      else kv :: setdefaultExtend rest b rs

/-- `add_to_library(brief, results, path)` acting on the persisted store:
`none` models a missing store file (a fresh dict is used and the file is
created by the write-back), `some data` models the loaded YAML mapping. -/
def add_to_library {α : Type} (brief : String) (results : List α)
    (store : Option (List (String × List α))) : List (String × List α) :=
  let data := store.getD []
  setdefaultExtend data brief results

/-- First-match lookup in a persisted store mapping. -/
def storeGet {α : Type} (st : List (String × List α)) (k : String) :
    Option (List α) :=
  (st.find? (·.1 == k)).map (·.2)

/-! ## Orchestrator (`sfx_agent/runner.py`) -/

def REQUIRED_DECOMPOSER_KEYS_FOR_PROMPT : List String :=
  ["source", "timbre", "dynamics", "pitch", "space", "analogy"]

/-- One entry of `results_for_library`: the post-processing results dict
copied and augmented with `brief`, `prompt` and `raw_audio_path`. -/
structure LibEntry where
  results : PPResults
  brief : String
  prompt : String
  rawAudioPath : FPath
deriving DecidableEq, Repr

/-- One observable call to a collaborator, in program order. -/
inductive CallEv where
  | decomposeCall (brief : String)
  | composeCall (params : Params)
  | generateCall (prompt : String) (duration : ℚ) (influence : ℚ)
  | processCall (raw : FPath)
  | libraryCall (brief : String) (records : List LibEntry) (path : String)

/-- The orchestrator's collaborators, as oracles: the filesystem contents
behind the config path, `decompose_brief` (raising `DecomposerError` with a
message), `generate_audio`, `process_audio`, and `add_to_library` (the
latter three raising arbitrary exceptions). -/
structure RunEnv where
  world : String → FileState
  decompose : String → Except String Params
  generate : String → ℚ → ℚ → Cfg → Except PyExc FPath
  process : FPath → ℚ → String → Except PyExc PPResults
  addToLibrary : String → List LibEntry → String → Except PyExc String

/-- The error message appended for a failed variation, chosen by the
`except` chain of the loop body: `KeyError` → composition message;
`FileNotFoundError` or `PostProcessingError` → post-processing message
(embedding the raw path, `None` before generation succeeded); any other
exception → the generic loop message.  Every branch embeds the influence
value formatted `.2f`. -/
def variationErrMsg (influence : ℚ) (raw : Option FPath) (e : PyExc) : String :=
  match e with
  | .keyError k =>
      "Error during composition (missing key '" ++ k ++ "') for influence " ++
        fmt2 influence ++ "."
  | .fileNotFoundError m =>
      "Error during post-processing for influence " ++ fmt2 influence ++
        " (raw file: " ++ (match raw with | some p => p.toStr | none => "None") ++
        "): " ++ m
  | .postProcessingError m =>
      "Error during post-processing for influence " ++ fmt2 influence ++
        " (raw file: " ++ (match raw with | some p => p.toStr | none => "None") ++
        "): " ++ m
  | e =>
      "Error during generation/processing loop for influence " ++
        fmt2 influence ++ ": " ++ e.msg

/-- Outcome of one loop iteration: at most one success path, at most one
error message, at most one library record, plus the calls made. -/
structure VarResult where
  path : Option FPath
  err : Option String
  entry : Option LibEntry
  events : List CallEv

/-- The body of step 4 for one influence value: build `iter_params` with
`prompt_influence` and `duration` overridden, compose, generate,
post-process; convert any failure to one recorded message. -/
def runVariation (env : RunEnv) (cfg : Cfg) (brief : String) (params : Params)
    (duration influence : ℚ) : VarResult :=
  let iterParams :=
    setParam (setParam params "prompt_influence" (.num influence))
      "duration" (.num duration)
  match compose_prompt iterParams with
  | .error e =>
      ⟨none, some (variationErrMsg influence none e), none,
        [.composeCall iterParams]⟩
  | .ok textPrompt =>
      match env.generate textPrompt duration influence cfg with
      | .error e =>
          ⟨none, some (variationErrMsg influence none e), none,
            [.composeCall iterParams, .generateCall textPrompt duration influence]⟩
      | .ok rawAudioPath =>
          match env.process rawAudioPath cfg.targetLufs cfg.outputFolder with
          | .error e =>
              ⟨none, some (variationErrMsg influence (some rawAudioPath) e), none,
                [.composeCall iterParams,
                 .generateCall textPrompt duration influence,
                 .processCall rawAudioPath]⟩
          | .ok processingResults =>
              match processingResults.output_path with
              | some processedFile =>
                  ⟨some processedFile, none,
                    some ⟨processingResults, brief, textPrompt, rawAudioPath⟩,
                    [.composeCall iterParams,
                     .generateCall textPrompt duration influence,
                     .processCall rawAudioPath]⟩
              | none =>
                  ⟨none,
                    some ("Post-processing completed but no output path returned for " ++
                      rawAudioPath.toStr ++ "."),
                    none,
                    [.composeCall iterParams,
                     .generateCall textPrompt duration influence,
                     .processCall rawAudioPath]⟩

/-- Accumulated state of the variation loop. -/
structure LoopAcc where
  paths : List FPath
  errs : List String
  entries : List LibEntry
  events : List CallEv

/-- Step 4: attempt every influence value in order, concatenating the
per-variation outcomes. -/
def runLoop (env : RunEnv) (cfg : Cfg) (brief : String) (params : Params)
    (duration : ℚ) : List ℚ → LoopAcc
  | [] => ⟨[], [], [], []⟩
  | influence :: rest =>
      let v := runVariation env cfg brief params duration influence
      let r := runLoop env cfg brief params duration rest
      ⟨v.path.toList ++ r.paths, v.err.toList ++ r.errs,
        v.entry.toList ++ r.entries, v.events ++ r.events⟩

/-- Step 3: `batch_influences` from the structured params when it is a
non-empty list whose every element converts to float, else the config
default (any conversion failure falls back silently). -/
def resolveInfluences (params : Params) (cfg : Cfg) : List ℚ :=
  let raw0 := getParam params "batch_influences" (.list (cfg.batchInfluences.map PyVal.num))
  let raw :=
    match raw0 with
    | .list xs =>
        if xs.isEmpty then PyVal.list (cfg.batchInfluences.map PyVal.num)
        else PyVal.list xs
    | _ => PyVal.list (cfg.batchInfluences.map PyVal.num)
  match raw with
  | .list xs =>
      match floatList xs with
      | .ok fs => fs
      | .error _ => cfg.batchInfluences
  | _ => cfg.batchInfluences

/-- Python's `repr` of a list of strings, as interpolated into the
missing-keys error message. -/
def pyReprStrList (xs : List String) : String :=
  "[" ++ String.intercalate ", " (xs.map (fun s => "'" ++ s ++ "'")) ++ "]"

/-- Steps 2–5 of `run_sfx_pipeline`, inside the outer `try` that converts
any uncaught exception to one "Unhandled exception" message (reachable only
from the `float(...)` duration conversion, with nothing accumulated yet). -/
def runBody (env : RunEnv) (cfg : Cfg) (brief : String) :
    (List FPath × List String) × List CallEv :=
  match env.decompose brief with
  | .error e =>
      (([], ["Failed to decompose brief: " ++ e]), [.decomposeCall brief])
  | .ok structuredParams =>
      let missingKeys :=
        REQUIRED_DECOMPOSER_KEYS_FOR_PROMPT.filter
          (fun k => !hasKey structuredParams k)
      if !missingKeys.isEmpty then
        (([], ["Failed to decompose brief: Decomposer output missing required keys for prompt: " ++
          pyReprStrList missingKeys]), [.decomposeCall brief])
      else
        match pyFloat (getParam structuredParams "duration" (.num cfg.defaultDuration)) with
        | .error e =>
            (([], ["Unhandled exception during pipeline execution: " ++ e.msg]),
              [.decomposeCall brief])
        | .ok duration =>
            let influences := resolveInfluences structuredParams cfg
            let lr := runLoop env cfg brief structuredParams duration influences
            let libPart : List String × List CallEv :=
              if lr.entries.isEmpty then ([], [])
              else
                match env.addToLibrary brief lr.entries cfg.libraryPath with
                | .ok _ => ([], [.libraryCall brief lr.entries cfg.libraryPath])
                | .error e =>
                    (["Failed to add results to library " ++ cfg.libraryPath ++
                        ": " ++ e.msg],
                      [.libraryCall brief lr.entries cfg.libraryPath])
            ((lr.paths, lr.errs ++ libPart.1),
              [CallEv.decomposeCall brief] ++ lr.events ++ libPart.2)

/-- `run_sfx_pipeline(brief, config_path)`.  A `FileNotFoundError` or
`ConfigError` from config loading is caught and returned as the single
error of the run; any other exception from config loading (see `mkConfig`)
escapes to the caller, which `.error` models.  After config loading the
function always returns its accumulated pair. -/
def run_sfx_pipeline (env : RunEnv) (brief : String) (configPath : String) :
    Except PyExc ((List FPath × List String) × List CallEv) :=
  match mkConfig (env.world configPath) with
  | .error (.fileNotFoundError m) =>
      .ok (([], ["Configuration error: " ++ m]), [])
  | .error (.configError m) =>
      .ok (([], ["Configuration error: " ++ m]), [])
  | .error e => .error e
  | .ok cfg => .ok (runBody env cfg brief)

/-! ## Concrete fixtures used by witnesses and counterexamples -/

/-- A post-processing environment whose meter always reports −25 LUFS. -/
def ppEnvK : PPEnv := ⟨id, fun _ _ _ => .finite (-25), fun a _ => a⟩

/-- A post-processing environment whose meter always reports silence. -/
def ppEnvSilent : PPEnv := ⟨id, fun _ _ _ => .negInf, fun a _ => a⟩

/-- A mono 16-bit segment peaking at −5 dBFS. -/
def audioMono : Audio := ⟨1, 2, 44100, [0, 100], .finite (-5)⟩

/-- A decoded segment reporting zero channels. -/
def audioZeroCh : Audio := ⟨0, 2, 44100, [], .negInf⟩

def fileMono : AudioFile := ⟨⟨"d", "a", ".wav"⟩, true, .ok audioMono⟩

def fileZeroCh : AudioFile := ⟨⟨"d", "z", ".wav"⟩, true, .ok audioZeroCh⟩

def fileDecodeFail : AudioFile := ⟨⟨"d", "bad", ".wav"⟩, true, .couldntDecode "bad data"⟩

/-! ## C1, C4, C8, C9 — post-processor claims -/

/-- Helper: under the stated decode/measurement hypotheses, `process_audio`
succeeds with the results of `processLoaded` on the effective (possibly
downmixed) segment. -/
theorem process_audio_ok (env : PPEnv) (f : AudioFile) (a eff : Audio)
    (tgt : ℚ) (od : Option String) (ow : Bool)
    (hex : f.fileExists = true) (hload : f.load = .ok a)
    (hch : a.channels ≠ 0)
    (heff : eff = if a.channels > 2 then env.downmix a else a) :
    process_audio env f tgt od ow = .ok (processLoaded env eff tgt od ow f.path) := by
  simp only [process_audio, hex, Bool.not_true, Bool.false_eq_true, if_false, hload]
  subst heff
  by_cases h2 : a.channels > 2
  · simp [h2]
  · simp [h2, hch]

/-- C1: for finite measured loudness L₀ and finite peak P₀ and target T,
`process_audio` computes desired gain `G = T − L₀`; when `P₀ + G > 0` it
sets `clipping_prevented = true` and `gain_applied_db = −P₀` exactly, and
otherwise `clipping_prevented = false` and `gain_applied_db = G`. -/
theorem C1_gain_computation (env : PPEnv) (f : AudioFile) (a eff : Audio)
    (tgt L0 P0 : ℚ) (od : Option String) (ow : Bool)
    (hex : f.fileExists = true) (hload : f.load = .ok a)
    (hch : a.channels ≠ 0)
    (heff : eff = if a.channels > 2 then env.downmix a else a)
    (hmeter : env.meter eff.frameRate eff.channels
      (scaleSamples eff.sampleWidth eff.samples) = .finite L0)
    (hpeak : eff.maxDBFS = .finite P0) :
    ∃ r, process_audio env f tgt od ow = .ok r ∧
      (P0 + (tgt - L0) > 0 → r.clipping_prevented = true ∧ r.gain_applied_db = -P0) ∧
      (¬P0 + (tgt - L0) > 0 → r.clipping_prevented = false ∧
        r.gain_applied_db = tgt - L0) := by
  refine ⟨processLoaded env eff tgt od ow f.path,
    process_audio_ok env f a eff tgt od ow hex hload hch heff, ?_, ?_⟩ <;>
    intro hcase <;>
    simp only [processLoaded, hmeter, hpeak] <;>
    simp [hcase]

/-- Closed instance of C1 at a concrete clipping-triggering input:
L₀ = −25, P₀ = −5, T = −18, so G = 7, predicted peak 2 > 0. -/
theorem C1_gain_computation_witness :
    ∃ r, process_audio ppEnvK fileMono (-18) (some "out") false = .ok r ∧
      ((-5 : ℚ) + (-18 - (-25)) > 0 → r.clipping_prevented = true ∧
        r.gain_applied_db = -(-5)) ∧
      (¬(-5 : ℚ) + (-18 - (-25)) > 0 → r.clipping_prevented = false ∧
        r.gain_applied_db = -18 - (-25)) :=
  C1_gain_computation ppEnvK fileMono audioMono audioMono (-18) (-25) (-5)
    (some "out") false rfl rfl (by decide) (by decide) rfl rfl

/-- C4: when the measured original loudness is −∞ (silence), `process_audio`
succeeds, applies zero gain (the result does not even depend on the
`apply_gain` collaborator), and reports the normalized metrics equal to the
original ones — both −∞ when the original peak is −∞ too. -/
theorem C4_silence_noop (env : PPEnv) (f : AudioFile) (a eff : Audio)
    (tgt : ℚ) (od : Option String) (ow : Bool)
    (hex : f.fileExists = true) (hload : f.load = .ok a)
    (hch : a.channels ≠ 0)
    (heff : eff = if a.channels > 2 then env.downmix a else a)
    (hmeter : env.meter eff.frameRate eff.channels
      (scaleSamples eff.sampleWidth eff.samples) = .negInf) :
    ∃ r, process_audio env f tgt od ow = .ok r ∧
      r.gain_applied_db = 0 ∧ r.clipping_prevented = false ∧
      r.original_lufs = some .negInf ∧
      r.normalized_lufs = r.original_lufs ∧
      r.normalized_peak_dbfs = r.original_peak_dbfs ∧
      (eff.maxDBFS = .negInf → r.normalized_peak_dbfs = some .negInf) ∧
      ∀ g, process_audio { env with applyGain := g } f tgt od ow =
        process_audio env f tgt od ow := by
  refine ⟨processLoaded env eff tgt od ow f.path,
    process_audio_ok env f a eff tgt od ow hex hload hch heff,
    ?_, ?_, ?_, ?_, ?_, ?_, ?_⟩
  · simp only [processLoaded, hmeter]
  · simp only [processLoaded, hmeter]
  · simp only [processLoaded, hmeter]
  · simp only [processLoaded, hmeter]
  · simp only [processLoaded, hmeter]
  · intro hpk
    simp only [processLoaded, hmeter, hpk]
  · intro g
    rw [process_audio_ok env f a eff tgt od ow hex hload hch heff,
      process_audio_ok { env with applyGain := g } f a eff tgt od ow hex hload hch
        (by simpa using heff)]
    simp only [processLoaded, hmeter]

/-- Closed instance of C4 at a concrete silent input. -/
theorem C4_silence_noop_witness :
    ∃ r, process_audio ppEnvSilent fileMono (-18) none false = .ok r ∧
      r.gain_applied_db = 0 ∧ r.clipping_prevented = false ∧
      r.original_lufs = some .negInf ∧
      r.normalized_lufs = r.original_lufs ∧
      r.normalized_peak_dbfs = r.original_peak_dbfs ∧
      (audioMono.maxDBFS = .negInf → r.normalized_peak_dbfs = some .negInf) ∧
      ∀ g, process_audio { ppEnvSilent with applyGain := g } fileMono (-18) none false =
        process_audio ppEnvSilent fileMono (-18) none false :=
  C4_silence_noop ppEnvSilent fileMono audioMono audioMono (-18) none false
    rfl rfl (by decide) rfl rfl

/-- C8 (counterexample): a zero-channel input and an undecodable input both
fail with an exception of the same class `PostProcessingError` — the code
defines no `ChannelError` subtype, so the zero-channel failure is not
distinguishable by type from a decode failure. -/
theorem C8_counterexample :
    process_audio ppEnvK fileZeroCh (-18) none false =
      .error (.postProcessingError "Audio file d/z.wav has 0 channels.") ∧
    process_audio ppEnvK fileDecodeFail (-18) none false =
      .error (.postProcessingError
        "Failed to decode audio file: d/bad.wav. Ensure it's a valid format and ffmpeg is installed.") ∧
    PyExc.tag (.postProcessingError "Audio file d/z.wav has 0 channels.") =
      PyExc.tag (.postProcessingError
        "Failed to decode audio file: d/bad.wav. Ensure it's a valid format and ffmpeg is installed.") :=
  ⟨rfl, rfl, rfl⟩

/-- C8 (amended): an input whose decoded audio reports zero channels makes
`process_audio` fail with the single `PostProcessingError` class, its
message naming the zero-channel condition; that class is type-distinct from
the builtin `FileNotFoundError` but is the same class used for decode and
unexpected failures (no `ChannelError` subtype exists in the code). -/
theorem C8_zero_channels (env : PPEnv) (f : AudioFile) (a : Audio)
    (tgt : ℚ) (od : Option String) (ow : Bool)
    (hex : f.fileExists = true) (hload : f.load = .ok a)
    (hch : a.channels = 0) :
    process_audio env f tgt od ow =
      .error (.postProcessingError
        ("Audio file " ++ f.path.toStr ++ " has 0 channels.")) ∧
    ∀ m mf, PyExc.tag (.postProcessingError m) ≠ PyExc.tag (.fileNotFoundError mf) := by
  constructor
  · simp [process_audio, hex, hload, hch]
  · intro m mf
    simp [PyExc.tag]

/-- Closed instance of C8 (amended) at the concrete zero-channel input. -/
theorem C8_zero_channels_witness :
    process_audio ppEnvK fileZeroCh (-18) none false =
      .error (.postProcessingError
        ("Audio file " ++ (FPath.mk "d" "z" ".wav").toStr ++ " has 0 channels.")) ∧
    ∀ m mf, PyExc.tag (.postProcessingError m) ≠ PyExc.tag (.fileNotFoundError mf) :=
  C8_zero_channels ppEnvK fileZeroCh audioZeroCh (-18) none false rfl rfl rfl

/-- C9 (counterexample): the 8-bit rescaling maps the maximum representable
sample 255 to 127/128 ≈ 0.992, not to 1.0 as claimed (the minimum 0 does
map to −1.0). -/
theorem C9_counterexample :
    scaleSamples 1 [0, 255] = [-1, 127 / 128] ∧
    scaleSamples 1 [0, 255] ≠ [-1, 1] := by
  constructor
  · simp only [scaleSamples]
    norm_num
  · simp only [scaleSamples]
    norm_num

/-- C9 (amended): before loudness measurement, sample buffers are scaled by
source bit depth — signed 16-bit divides by 2^15, signed 32-bit by 2^31,
and unsigned 8-bit maps `s ↦ (s / 2^8) · 2 − 1`, sending 0 to −1.0 and 255
to 127/128 (not 1.0) — and the loudness meter is invoked on exactly this
scaled buffer. -/
theorem C9_sample_scaling (env : PPEnv) (f : AudioFile) (a : Audio)
    (tgt : ℚ) (od : Option String) (ow : Bool)
    (hex : f.fileExists = true) (hload : f.load = .ok a)
    (hch : a.channels ≠ 0) (h2 : ¬a.channels > 2) :
    (∀ xs, scaleSamples 2 xs = xs.map (fun s => (s : ℚ) / 2 ^ 15)) ∧
    (∀ xs, scaleSamples 4 xs = xs.map (fun s => (s : ℚ) / 2 ^ 31)) ∧
    (∀ xs, scaleSamples 1 xs = xs.map (fun s => ((s : ℚ) / 2 ^ 8) * 2 - 1)) ∧
    scaleSamples 1 [0] = [-1] ∧ scaleSamples 1 [255] = [127 / 128] ∧
    ∃ r, process_audio env f tgt od ow = .ok r ∧
      r.original_lufs = some (env.meter a.frameRate a.channels
        (scaleSamples a.sampleWidth a.samples)) := by
  refine ⟨fun xs => by simp [scaleSamples], fun xs => by simp [scaleSamples],
    fun xs => by simp [scaleSamples], by simp [scaleSamples], ?_, ?_⟩
  · simp only [scaleSamples]
    norm_num
  · refine ⟨processLoaded env a tgt od ow f.path,
      process_audio_ok env f a a tgt od ow hex hload hch (by simp [h2]), ?_⟩
    rcases h : env.meter a.frameRate a.channels
        (scaleSamples a.sampleWidth a.samples) with _ | L0 <;>
      simp only [processLoaded, h]

/-- Closed instance of C9 (amended) at the concrete mono 16-bit input. -/
theorem C9_sample_scaling_witness :
    (∀ xs, scaleSamples 2 xs = xs.map (fun s => (s : ℚ) / 2 ^ 15)) ∧
    (∀ xs, scaleSamples 4 xs = xs.map (fun s => (s : ℚ) / 2 ^ 31)) ∧
    (∀ xs, scaleSamples 1 xs = xs.map (fun s => ((s : ℚ) / 2 ^ 8) * 2 - 1)) ∧
    scaleSamples 1 [0] = [-1] ∧ scaleSamples 1 [255] = [127 / 128] ∧
    ∃ r, process_audio ppEnvK fileMono (-18) none false = .ok r ∧
      r.original_lufs = some (ppEnvK.meter audioMono.frameRate audioMono.channels
        (scaleSamples audioMono.sampleWidth audioMono.samples)) :=
  C9_sample_scaling ppEnvK fileMono audioMono (-18) none false rfl rfl
    (by decide) (by decide)

/-! ## C6 — library store -/

/-- Reading the head of an association-list store. -/
theorem storeGet_cons {α : Type} (kv : String × List α)
    (rest : List (String × List α)) (k : String) :
    storeGet (kv :: rest) k = if kv.1 == k then some kv.2 else storeGet rest k := by
  by_cases h : kv.1 == k <;> simp [storeGet, List.find?_cons, h]

/-- How `setdefault(brief, []).extend(results)` reads back: the brief's
list gains `results` at its end, every other key is untouched. -/
theorem storeGet_setdefaultExtend {α : Type} (st : List (String × List α))
    (b : String) (rs : List α) (k : String) :
    storeGet (setdefaultExtend st b rs) k =
      if k = b then some ((storeGet st b).getD [] ++ rs) else storeGet st k := by
  induction st with
  | nil =>
      by_cases hk : k = b
      · subst hk
        simp [setdefaultExtend, storeGet_cons, storeGet]
      · have hbk : (b == k) = false := by simpa using Ne.symm hk
        simp [setdefaultExtend, storeGet_cons, hbk, hk, storeGet]
  | cons kv rest ih =>
      by_cases h0 : kv.1 = b
      · have hsd : setdefaultExtend (kv :: rest) b rs = (kv.1, kv.2 ++ rs) :: rest := by
          simp [setdefaultExtend, h0]
        by_cases hk : k = b
        · subst hk
          have h1 : (kv.1 == k) = true := by simp [h0]
          simp [hsd, storeGet_cons, h1]
        · have h1 : (kv.1 == k) = false := by
            simp only [beq_eq_false_iff_ne, ne_eq]
            exact fun h => hk (h ▸ h0)
          simp [hsd, storeGet_cons, h1, hk]
      · have hsd : setdefaultExtend (kv :: rest) b rs = kv :: setdefaultExtend rest b rs := by
          simp [setdefaultExtend, h0]
        have hb : (kv.1 == b) = false := by simpa using h0
        by_cases hk1 : kv.1 = k
        · have hkb : ¬k = b := fun h => h0 (hk1.trans h)
          have h1 : (kv.1 == k) = true := by simp [hk1]
          simp [hsd, storeGet_cons, h1, hkb]
        · have h1 : (kv.1 == k) = false := by simpa using hk1
          simp [hsd, storeGet_cons, h1, hb, ih]

/-- C6: appending results under a brief already present extends that
brief's existing list — existing entries first, new entries after, none
replaced — and leaves every other brief unchanged; appending under a brief
not yet present creates its list while other briefs keep their entries;
and with no store file the created store holds exactly the new entries. -/
theorem C6_add_to_library {α : Type} (brief : String) (results : List α)
    (store : List (String × List α)) :
    (∀ old, storeGet store brief = some old →
      storeGet (add_to_library brief results (some store)) brief =
        some (old ++ results)) ∧
    (storeGet store brief = none →
      storeGet (add_to_library brief results (some store)) brief = some results) ∧
    (∀ k, k ≠ brief →
      storeGet (add_to_library brief results (some store)) k = storeGet store k) ∧
    add_to_library brief results none = [(brief, results)] := by
  refine ⟨?_, ?_, ?_, rfl⟩
  · intro old hold
    simp [add_to_library, storeGet_setdefaultExtend, hold]
  · intro hnone
    simp [add_to_library, storeGet_setdefaultExtend, hnone]
  · intro k hk
    simp [add_to_library, storeGet_setdefaultExtend, hk]

/-- Closed instance of C6: the spec's own example — appending `["b"]` under
"X" to a store holding `{"X": ["a"]}`, appending under a fresh "Y", and
writing to a missing store file. -/
theorem C6_add_to_library_witness :
    storeGet (add_to_library "X" ["b"] (some [("X", ["a"])])) "X" = some ["a", "b"] ∧
    storeGet (add_to_library "Y" ["b"] (some [("X", ["a"])])) "Y" = some ["b"] ∧
    storeGet (add_to_library "Y" ["b"] (some [("X", ["a"])])) "X" = some ["a"] ∧
    add_to_library "Z" ["c"] (none : Option (List (String × List String))) =
      [("Z", ["c"])] :=
  ⟨(C6_add_to_library "X" ["b"] [("X", ["a"])]).1 ["a"] rfl,
   (C6_add_to_library "Y" ["b"] [("X", ["a"])]).2.1 rfl,
   (C6_add_to_library "Y" ["b"] [("X", ["a"])]).2.2.1 "X" (by decide),
   (C6_add_to_library "Z" ["c"] ([] : List (String × List String))).2.2.2⟩

/-! ## C10 — prompt text independent of `prompt_influence` -/

/-- Overwriting key `km` leaves lookups of a different key unchanged. -/
theorem find?_overwriteMap (p : Params) (km k : String) (v : PyVal) (h : ¬k = km) :
    (p.map (fun kv => if kv.1 == km then (km, v) else kv)).find? (·.1 == k) =
      p.find? (·.1 == k) := by
  induction p with
  | nil => rfl
  | cons kv rest ih =>
      simp only [List.map_cons]
      by_cases h1 : (kv.1 == km) = true
      · have hkm : kv.1 = km := by simpa using h1
        have h3 : (kv.1 == k) = false := by
          simp only [beq_eq_false_iff_ne, ne_eq, hkm]
          exact fun hh => h hh.symm
        have h2 : (km == k) = false := by
          simp only [beq_eq_false_iff_ne, ne_eq]
          exact fun hh => h hh.symm
        rw [if_pos h1]
        simp only [List.find?_cons, h2, h3]
        exact ih
      · have h1f : (kv.1 == km) = false := by simpa using h1
        rw [if_neg h1]
        by_cases h4 : (kv.1 == k) = true
        · simp only [List.find?_cons, h4]
        · have h4f : (kv.1 == k) = false := by simpa using h4
          simp only [List.find?_cons, h4f]
          exact ih

/-- Appending a fresh key leaves lookups of a different key unchanged. -/
theorem find?_appendSingle (p : Params) (km k : String) (v : PyVal) (h : ¬k = km) :
    (p ++ [(km, v)]).find? (·.1 == k) = p.find? (·.1 == k) := by
  rw [List.find?_append]
  have hkm : ([((km : String), v)].find? (·.1 == k)) = none := by
    simp only [List.find?_eq_none, List.mem_singleton]
    rintro x rfl
    simpa using fun hh => h hh.symm
  rw [hkm, Option.or_none]

/-- `d[k]` after `d[km] = v` with `k ≠ km` reads as before. -/
theorem getItem_setParam_ne (p : Params) (km k : String) (v : PyVal) (h : ¬k = km) :
    getItem (setParam p km v) k = getItem p k := by
  unfold getItem setParam
  by_cases hk : hasKey p km = true
  · rw [if_pos hk, find?_overwriteMap p km k v h]
  · rw [if_neg hk, find?_appendSingle p km k v h]

/-- After overwriting `km`, the first match for `km` is the new binding. -/
theorem find?_overwriteMap_self (p : Params) (km : String) (v : PyVal)
    (hk : hasKey p km = true) :
    (p.map (fun kv => if kv.1 == km then (km, v) else kv)).find? (·.1 == km) =
      some (km, v) := by
  induction p with
  | nil => simp [hasKey] at hk
  | cons kv rest ih =>
      simp only [List.map_cons]
      by_cases h1 : (kv.1 == km) = true
      · rw [if_pos h1]
        simp only [List.find?_cons, beq_self_eq_true]
      · have h1f : (kv.1 == km) = false := by simpa using h1
        have hk1 : hasKey rest km = true := by
          simpa [hasKey, h1f] using hk
        rw [if_neg h1]
        simp only [List.find?_cons, h1f]
        exact ih hk1

/-- `d[k]` right after `d[k] = v` yields `v`. -/
theorem getItem_setParam_eq (p : Params) (km : String) (v : PyVal) :
    getItem (setParam p km v) km = .ok v := by
  unfold getItem setParam
  by_cases hk : hasKey p km = true
  · rw [if_pos hk, find?_overwriteMap_self p km v hk]
  · have hf : p.find? (·.1 == km) = none := by
      rw [List.find?_eq_none]
      intro x hx hxk
      exact hk (by simp only [hasKey, List.any_eq_true]; exact ⟨x, hx, hxk⟩)
    rw [if_neg hk, List.find?_append, hf, Option.none_or,
      List.find?_cons_of_pos _ (by simp)]

/-- A present key can be read. -/
theorem hasKey_getItem (p : Params) (k : String) (h : hasKey p k = true) :
    ∃ v, getItem p k = .ok v := by
  rcases hf : p.find? (·.1 == k) with _ | kv
  · rw [List.find?_eq_none] at hf
    rw [hasKey, List.any_eq_true] at h
    obtain ⟨x, hx, hpx⟩ := h
    exact absurd hpx (hf x hx)
  · exact ⟨kv.2, by unfold getItem; rw [hf]⟩

/-- `compose_prompt` only observes the seven template-field lookups. -/
theorem compose_prompt_congr (p q : Params)
    (h1 : getItem p "source" = getItem q "source")
    (h2 : getItem p "timbre" = getItem q "timbre")
    (h3 : getItem p "dynamics" = getItem q "dynamics")
    (h4 : getItem p "duration" = getItem q "duration")
    (h5 : getItem p "pitch" = getItem q "pitch")
    (h6 : getItem p "space" = getItem q "space")
    (h7 : getItem p "analogy" = getItem q "analogy") :
    compose_prompt p = compose_prompt q := by
  simp only [compose_prompt, h1, h2, h3, h4, h5, h6, h7]

/-- When the six required fields and a duration are present, composing
succeeds. -/
theorem compose_prompt_ok (p : Params)
    (h6 : ∀ k ∈ REQUIRED_DECOMPOSER_KEYS_FOR_PROMPT, hasKey p k = true)
    (hd : hasKey p "duration" = true) :
    ∃ s, compose_prompt p = .ok s := by
  obtain ⟨v1, e1⟩ := hasKey_getItem p "source" (h6 _ (by decide))
  obtain ⟨v2, e2⟩ := hasKey_getItem p "timbre" (h6 _ (by decide))
  obtain ⟨v3, e3⟩ := hasKey_getItem p "dynamics" (h6 _ (by decide))
  obtain ⟨v4, e4⟩ := hasKey_getItem p "duration" hd
  obtain ⟨v5, e5⟩ := hasKey_getItem p "pitch" (h6 _ (by decide))
  obtain ⟨v6, e6⟩ := hasKey_getItem p "space" (h6 _ (by decide))
  obtain ⟨v7, e7⟩ := hasKey_getItem p "analogy" (h6 _ (by decide))
  exact ⟨pyStr v1 ++ ": a " ++ pyStr v2 ++ " sound; " ++ pyStr v3 ++ ", " ++
      pyStr v4 ++ "s, " ++ pyStr v5 ++ "; " ++ pyStr v6 ++ "; like " ++ pyStr v7 ++ ".",
    by simp only [compose_prompt, e1, e2, e3, e4, e5, e6, e7]; rfl⟩

/-- The per-variation `iter_params` yield the same prompt for any two
influence values: the template never reads `prompt_influence`. -/
theorem compose_iterParams_const (params : Params) (duration : ℚ) (a b : ℚ) :
    compose_prompt (setParam (setParam params "prompt_influence" (.num a))
      "duration" (.num duration)) =
    compose_prompt (setParam (setParam params "prompt_influence" (.num b))
      "duration" (.num duration)) := by
  apply compose_prompt_congr
  case h4 => rw [getItem_setParam_eq, getItem_setParam_eq]
  all_goals
    rw [getItem_setParam_ne _ _ _ _ (by decide), getItem_setParam_ne _ _ _ _ (by decide),
      getItem_setParam_ne _ _ _ _ (by decide), getItem_setParam_ne _ _ _ _ (by decide)]

/-- A `generateCall` event of one variation carries exactly the prompt
composed from that variation's `iter_params`. -/
theorem runVariation_generate_prompt (env : RunEnv) (cfg : Cfg) (brief : String)
    (params : Params) (duration influence : ℚ) (p : String) (d f : ℚ)
    (hmem : CallEv.generateCall p d f ∈
      (runVariation env cfg brief params duration influence).events) :
    compose_prompt (setParam (setParam params "prompt_influence" (.num influence))
      "duration" (.num duration)) = .ok p := by
  simp only [runVariation] at hmem
  rcases hc : compose_prompt (setParam (setParam params "prompt_influence" (.num influence))
      "duration" (.num duration)) with e | tp
  · simp [hc] at hmem
  · simp only [hc] at hmem
    rcases hg : env.generate tp duration influence cfg with e | raw
    · simp [hg] at hmem
      rw [hmem.1]
    · simp only [hg] at hmem
      rcases hp : env.process raw cfg.targetLufs cfg.outputFolder with e | res
      · simp [hp] at hmem
        rw [hmem.1]
      · simp only [hp] at hmem
        rcases ho : res.output_path with _ | out
        · simp [ho] at hmem
          rw [hmem.1]
        · simp [ho] at hmem
          rw [hmem.1]

/-- Events of the loop arise from the individual variations. -/
theorem runLoop_events_mem (env : RunEnv) (cfg : Cfg) (brief : String)
    (params : Params) (duration : ℚ) (l : List ℚ) (ev : CallEv)
    (h : ev ∈ (runLoop env cfg brief params duration l).events) :
    ∃ i ∈ l, ev ∈ (runVariation env cfg brief params duration i).events := by
  induction l with
  | nil => simp [runLoop] at h
  | cons i rest ih =>
      simp only [runLoop] at h
      rcases List.mem_append.mp h with h | h
      · exact ⟨i, by simp, h⟩
      · obtain ⟨j, hj, hev⟩ := ih h
        exact ⟨j, by simp [hj], hev⟩

/-- C10: with the default template the composed prompt does not depend on
the `prompt_influence` entry — overriding it with any two values gives the
same successfully composed string — and consequently any two generator
calls of one pipeline run carry the identical prompt text. -/
theorem C10_prompt_independent_of_influence (params : Params) (i1 i2 : PyVal)
    (h6 : ∀ k ∈ REQUIRED_DECOMPOSER_KEYS_FOR_PROMPT, hasKey params k = true)
    (hd : hasKey params "duration" = true) :
    (∃ s, compose_prompt (setParam params "prompt_influence" i1) = .ok s ∧
      compose_prompt (setParam params "prompt_influence" i2) = .ok s) ∧
    ∀ env cfg brief duration influences p1 d1 f1 p2 d2 f2,
      CallEv.generateCall p1 d1 f1 ∈
        (runLoop env cfg brief params duration influences).events →
      CallEv.generateCall p2 d2 f2 ∈
        (runLoop env cfg brief params duration influences).events →
      p1 = p2 := by
  constructor
  · obtain ⟨s, hs⟩ := compose_prompt_ok params h6 hd
    have heq : ∀ i : PyVal,
        compose_prompt (setParam params "prompt_influence" i) = compose_prompt params := by
      intro i
      apply compose_prompt_congr <;> exact getItem_setParam_ne _ _ _ _ (by decide)
    exact ⟨s, (heq i1).trans hs, (heq i2).trans hs⟩
  · intro env cfg brief duration influences p1 d1 f1 p2 d2 f2 hm1 hm2
    obtain ⟨j1, _, he1⟩ := runLoop_events_mem env cfg brief params duration influences _ hm1
    obtain ⟨j2, _, he2⟩ := runLoop_events_mem env cfg brief params duration influences _ hm2
    have hc1 := runVariation_generate_prompt env cfg brief params duration j1 p1 d1 f1 he1
    have hc2 := runVariation_generate_prompt env cfg brief params duration j2 p2 d2 f2 he2
    have := (compose_iterParams_const params duration j1 j2).symm.trans hc1
    rw [hc2] at this
    exact (Except.ok.injEq _ _).mp this |>.symm

/-- Closed instance of C10 at the spec's door-click parameter mapping and
influences 0.5 and 0.9. -/
theorem C10_prompt_independent_of_influence_witness :
    (∃ s, compose_prompt (setParam
        [("source", PyVal.str "door"), ("timbre", PyVal.str "sharp"),
         ("dynamics", PyVal.str "fast"), ("duration", PyVal.num (6 / 5)),
         ("pitch", PyVal.str "low"), ("space", PyVal.str "hall"),
         ("analogy", PyVal.str "click")] "prompt_influence" (PyVal.num (1 / 2))) = .ok s ∧
      compose_prompt (setParam
        [("source", PyVal.str "door"), ("timbre", PyVal.str "sharp"),
         ("dynamics", PyVal.str "fast"), ("duration", PyVal.num (6 / 5)),
         ("pitch", PyVal.str "low"), ("space", PyVal.str "hall"),
         ("analogy", PyVal.str "click")] "prompt_influence" (PyVal.num (9 / 10))) = .ok s) ∧
    ∀ env cfg brief duration influences p1 d1 f1 p2 d2 f2,
      CallEv.generateCall p1 d1 f1 ∈
        (runLoop env cfg brief
          [("source", PyVal.str "door"), ("timbre", PyVal.str "sharp"),
           ("dynamics", PyVal.str "fast"), ("duration", PyVal.num (6 / 5)),
           ("pitch", PyVal.str "low"), ("space", PyVal.str "hall"),
           ("analogy", PyVal.str "click")] duration influences).events →
      CallEv.generateCall p2 d2 f2 ∈
        (runLoop env cfg brief
          [("source", PyVal.str "door"), ("timbre", PyVal.str "sharp"),
           ("dynamics", PyVal.str "fast"), ("duration", PyVal.num (6 / 5)),
           ("pitch", PyVal.str "low"), ("space", PyVal.str "hall"),
           ("analogy", PyVal.str "click")] duration influences).events →
      p1 = p2 :=
  C10_prompt_independent_of_influence
    [("source", PyVal.str "door"), ("timbre", PyVal.str "sharp"),
     ("dynamics", PyVal.str "fast"), ("duration", PyVal.num (6 / 5)),
     ("pitch", PyVal.str "low"), ("space", PyVal.str "hall"),
     ("analogy", PyVal.str "click")] (PyVal.num (1 / 2)) (PyVal.num (9 / 10))
    (by decide) (by decide)

/-! ## Substring facts: error messages embed the influence value -/

theorem subOccurs_nil_needle (h : List Char) : subOccurs [] h = true := by
  cases h <;> simp [subOccurs, List.isPrefixOf]

theorem subOccurs_of_isPrefixOf (n h : List Char) (hp : n <+: h) :
    subOccurs n h = true := by
  cases h with
  | nil =>
      obtain ⟨t, ht⟩ := hp
      have : n = [] := by
        cases n with
        | nil => rfl
        | cons c cs => simp at ht
      simp [this, subOccurs]
  | cons c t =>
      have : n.isPrefixOf (c :: t) = true := List.isPrefixOf_iff_prefix.mpr hp
      simp [subOccurs, this]

theorem subOccurs_append_right (n h t : List Char) (hs : subOccurs n h = true) :
    subOccurs n (h ++ t) = true := by
  induction h with
  | nil =>
      simp only [subOccurs] at hs
      have : n = [] := by simpa using hs
      subst this
      exact subOccurs_nil_needle t
  | cons c h1 ih =>
      simp only [subOccurs, Bool.or_eq_true] at hs ⊢
      rcases hs with hs | hs
      · exact Or.inl (List.isPrefixOf_iff_prefix.mpr
          ((List.isPrefixOf_iff_prefix.mp hs).trans (List.prefix_append _ t)))
      · exact Or.inr (ih hs)

theorem subOccurs_sandwich (n pre post : List Char) :
    subOccurs n (pre ++ n ++ post) = true := by
  induction pre with
  | nil =>
      simp only [List.nil_append]
      exact subOccurs_append_right n n post
        (subOccurs_of_isPrefixOf n n (List.prefix_refl n))
  | cons c pre1 ih =>
      simp only [List.cons_append, subOccurs, Bool.or_eq_true]
      exact Or.inr ih

/-- A string of the shape `pre ++ mid ++ post` contains `mid`. -/
theorem strHasSub_sandwich (pre mid post : String) :
    strHasSub (pre ++ mid ++ post) mid = true := by
  unfold strHasSub
  rw [String.data_append, String.data_append]
  exact subOccurs_sandwich mid.data pre.data post.data

/-- A string of the shape `pre ++ mid` contains `mid`. -/
theorem strHasSub_append_left (pre mid : String) :
    strHasSub (pre ++ mid) mid = true := by
  unfold strHasSub
  rw [String.data_append]
  have := subOccurs_sandwich mid.data pre.data []
  simpa using this

/-- Containment survives appending on the right. -/
theorem strHasSub_extend (h t mid : String) (hs : strHasSub h mid = true) :
    strHasSub (h ++ t) mid = true := by
  unfold strHasSub at hs ⊢
  rw [String.data_append]
  exact subOccurs_append_right mid.data h.data t.data hs

/-- Every per-variation failure message embeds the influence value in its
`.2f` formatting (each branch of the `except` chain interpolates it). -/
theorem variationErrMsg_contains (i : ℚ) (raw : Option FPath) (e : PyExc) :
    strHasSub (variationErrMsg i raw e) (fmt2 i) = true := by
  cases e with
  | keyError k =>
      exact strHasSub_sandwich _ (fmt2 i) "."
  | fileNotFoundError m =>
      exact strHasSub_extend _ _ _ (strHasSub_extend _ _ _ (strHasSub_extend _ _ _
        (strHasSub_extend _ _ _ (strHasSub_append_left _ (fmt2 i)))))
  | postProcessingError m =>
      exact strHasSub_extend _ _ _ (strHasSub_extend _ _ _ (strHasSub_extend _ _ _
        (strHasSub_extend _ _ _ (strHasSub_append_left _ (fmt2 i)))))
  | configError m =>
      exact strHasSub_extend _ _ _
        (strHasSub_extend _ _ _ (strHasSub_append_left _ (fmt2 i)))
  | typeError m =>
      exact strHasSub_extend _ _ _
        (strHasSub_extend _ _ _ (strHasSub_append_left _ (fmt2 i)))
  | valueError m =>
      exact strHasSub_extend _ _ _
        (strHasSub_extend _ _ _ (strHasSub_append_left _ (fmt2 i)))
  | otherError m =>
      exact strHasSub_extend _ _ _
        (strHasSub_extend _ _ _ (strHasSub_append_left _ (fmt2 i)))

/-! ## Loop decomposition: the variation loop is per-influence independent -/

/-- The loop's accumulators are exactly the concatenation of the
per-variation outcomes, in influence order. -/
theorem runLoop_eq (env : RunEnv) (cfg : Cfg) (brief : String) (params : Params)
    (duration : ℚ) (l : List ℚ) :
    runLoop env cfg brief params duration l =
      ⟨l.filterMap (fun i => (runVariation env cfg brief params duration i).path),
       l.filterMap (fun i => (runVariation env cfg brief params duration i).err),
       l.filterMap (fun i => (runVariation env cfg brief params duration i).entry),
       l.flatMap (fun i => (runVariation env cfg brief params duration i).events)⟩ := by
  induction l with
  | nil => rfl
  | cons i rest ih =>
      simp only [runLoop, ih, List.filterMap_cons, List.flatMap_cons]
      cases hp : (runVariation env cfg brief params duration i).path <;>
        cases he : (runVariation env cfg brief params duration i).err <;>
          cases hn : (runVariation env cfg brief params duration i).entry <;>
            simp [hp, he, hn]

/-! ## Runner fixtures (integer-valued so the kernel can evaluate them) -/

/-- A valid configuration file value. -/
def goodYaml : PyVal := .map
  [("elevenlabs", .map [("voice", .str "v"), ("model", .str "m")]),
   ("gemma", .map [("model", .str "g")]),
   ("output", .map [("folder", .str "out"), ("file_format", .str "wav")]),
   ("prompt", .map [("default_duration", .num 2), ("prompt_influence", .num 1),
      ("batch_influences", .list [.num 1, .num 2])]),
   ("processing", .map [("target_lufs", .num (-18))]),
   ("library", .map [("path", .str "lib.yml")]),
   ("logging", .map [("level", .str "INFO")])]

/-- The `Cfg` view of `goodYaml`. -/
def cfgGood : Cfg := ⟨2, 1, [1, 2], -18, "out", "lib.yml"⟩

/-- A complete decomposer output. -/
def doorParams : Params :=
  [("source", .str "door"), ("timbre", .str "sharp"), ("dynamics", .str "fast"),
   ("duration", .num 2), ("pitch", .str "low"), ("space", .str "hall"),
   ("analogy", .str "click")]

/-- A decomposer output missing the required `pitch` field. -/
def doorParamsNoPitch : Params :=
  [("source", .str "door"), ("timbre", .str "sharp"), ("dynamics", .str "fast"),
   ("duration", .num 2), ("space", .str "hall"), ("analogy", .str "click")]

/-- Post-processing results the process oracle returns for a raw path. -/
def ppResultsFor (p : FPath) : PPResults :=
  { original_lufs := some (.finite (-25)), original_peak_dbfs := some (.finite (-5)),
    target_lufs := -18, gain_applied_db := 7, clipping_prevented := false,
    normalized_lufs := some (.finite (-18)), normalized_peak_dbfs := some (.finite (-11)),
    output_path := some ⟨"out", p.stem ++ "_norm", p.suffix⟩ }

/-- An orchestrator environment over `goodYaml` whose generator fails for
influence 1 and succeeds for influence 2 (the spec's two-variation
scenario). -/
def runEnvA : RunEnv :=
  { world := fun _ => .content goodYaml,
    decompose := fun _ => .ok doorParams,
    generate := fun _ _ infl _ =>
      if infl == 1 then .error (.otherError "API failure")
      else .ok ⟨"raw", "r2", ".wav"⟩,
    process := fun p _ _ => .ok (ppResultsFor p),
    addToLibrary := fun _ _ p => .ok p }

/-- The same environment with a decomposer output missing `pitch`. -/
def runEnvC3 : RunEnv :=
  { runEnvA with decompose := fun _ => .ok doorParamsNoPitch }

/-! ## C3 — missing required decomposer fields -/

/-- C3: when the decomposer succeeds but its mapping lacks required fields,
the run returns no successes and exactly one error message that mentions
the missing fields, and the trace contains no composer or generator call. -/
theorem C3_missing_required_fields (env : RunEnv) (cfg : Cfg)
    (brief configPath : String) (params : Params)
    (hcfg : mkConfig (env.world configPath) = .ok cfg)
    (hdec : env.decompose brief = .ok params)
    (hmiss : REQUIRED_DECOMPOSER_KEYS_FOR_PROMPT.filter (fun k => !hasKey params k) ≠ []) :
    run_sfx_pipeline env brief configPath = .ok
      (([], ["Failed to decompose brief: Decomposer output missing required keys for prompt: " ++
          pyReprStrList (REQUIRED_DECOMPOSER_KEYS_FOR_PROMPT.filter
            (fun k => !hasKey params k))]),
        [CallEv.decomposeCall brief]) ∧
    (∀ ps, CallEv.composeCall ps ∉ ([CallEv.decomposeCall brief] : List CallEv)) ∧
    (∀ pr d f, CallEv.generateCall pr d f ∉ ([CallEv.decomposeCall brief] : List CallEv)) := by
  have h1 : (REQUIRED_DECOMPOSER_KEYS_FOR_PROMPT.filter
      (fun k => !hasKey params k)).isEmpty = false := by
    rcases hq : REQUIRED_DECOMPOSER_KEYS_FOR_PROMPT.filter (fun k => !hasKey params k) with
      _ | ⟨a, t⟩
    · exact absurd hq hmiss
    · rfl
  refine ⟨?_, ?_, ?_⟩
  · simp only [run_sfx_pipeline, hcfg, runBody, hdec, h1, Bool.not_false, if_true]
  · intro ps
    simp
  · intro pr d f
    simp

/-- Closed instance of C3: the decomposer output misses `pitch`. -/
theorem C3_missing_required_fields_witness :
    run_sfx_pipeline runEnvC3 "a door slam" "cfg.yml" = .ok
      (([], ["Failed to decompose brief: Decomposer output missing required keys for prompt: " ++
          pyReprStrList (REQUIRED_DECOMPOSER_KEYS_FOR_PROMPT.filter
            (fun k => !hasKey doorParamsNoPitch k))]),
        [CallEv.decomposeCall "a door slam"]) ∧
    (∀ ps, CallEv.composeCall ps ∉ ([CallEv.decomposeCall "a door slam"] : List CallEv)) ∧
    (∀ pr d f, CallEv.generateCall pr d f ∉
      ([CallEv.decomposeCall "a door slam"] : List CallEv)) :=
  C3_missing_required_fields runEnvC3 cfgGood "a door slam" "cfg.yml"
    doorParamsNoPitch rfl rfl (by decide)

/-! ## C7 — batch-influence resolution with silent fallback -/

/-- Converting the config's own float list back through `float(...)` is the
identity (the fallback path of step 3 always converts cleanly). -/
theorem floatList_num (l : List ℚ) : floatList (l.map PyVal.num) = .ok l := by
  induction l with
  | nil => rfl
  | cons q t ih =>
      simp only [floatList, List.map_cons, pyFloat, ih]
      rfl

/-- A readable key is present. -/
theorem hasKey_of_getItem (p : Params) (k : String) (v : PyVal)
    (h : getItem p k = .ok v) : hasKey p k = true := by
  unfold getItem at h
  rcases hf : p.find? (·.1 == k) with _ | kv
  · rw [hf] at h
    cases h
  · have hp := List.find?_some hf
    simp only [hasKey, List.any_eq_true]
    exact ⟨kv, List.mem_of_find?_eq_some hf, hp⟩

/-- `filterMap` over a list of all-`some` values keeps the length. -/
theorem length_filterMap_of_isSome {α β : Type} (f : α → Option β) (l : List α)
    (h : ∀ a ∈ l, (f a).isSome = true) : (l.filterMap f).length = l.length := by
  induction l with
  | nil => rfl
  | cons a t ih =>
      rcases hf : f a with _ | b
      · exact absurd (hf ▸ h a (by simp)) (by simp)
      · simp [List.filterMap_cons, hf, ih (fun x hx => h x (by simp [hx]))]

/-- When the decomposer output has all six prompt fields, every variation's
`iter_params` compose successfully (`duration` is supplied by the
override). -/
theorem iterParams_compose_ok (params : Params) (duration i : ℚ)
    (hkeys : REQUIRED_DECOMPOSER_KEYS_FOR_PROMPT.filter (fun k => !hasKey params k) = []) :
    ∃ s, compose_prompt (setParam (setParam params "prompt_influence" (.num i))
      "duration" (.num duration)) = .ok s := by
  apply compose_prompt_ok
  · intro k hk
    have hpk : hasKey params k = true := by
      by_contra hc
      have hkf : (!hasKey params k) = true := by
        rcases hb : hasKey params k with _ | _
        · rfl
        · exact absurd hb hc
      have hmem : k ∈ REQUIRED_DECOMPOSER_KEYS_FOR_PROMPT.filter
          (fun k => !hasKey params k) := List.mem_filter.mpr ⟨hk, hkf⟩
      rw [hkeys] at hmem
      cases hmem
    obtain ⟨v, hv⟩ := hasKey_getItem params k hpk
    apply hasKey_of_getItem _ _ v
    simp only [REQUIRED_DECOMPOSER_KEYS_FOR_PROMPT, List.mem_cons,
      List.not_mem_nil, or_false] at hk
    rcases hk with rfl | rfl | rfl | rfl | rfl | rfl <;>
      (rw [getItem_setParam_ne _ _ _ _ (by decide),
        getItem_setParam_ne _ _ _ _ (by decide)]; exact hv)
  · exact hasKey_of_getItem _ _ (.num duration) (getItem_setParam_eq _ _ _)

/-- C7: (a) a decomposer-provided `batch_influences` that is not a list, is
an empty list, or has an element that fails float conversion is silently
replaced by the config default, and only a non-empty all-convertible list
is used as given; (b) this fallback appends no error message: with all
collaborators succeeding, the run's error list is empty while every
resolved variation is generated. -/
theorem C7_batch_influences_fallback (env : RunEnv) (cfg : Cfg)
    (brief configPath : String) (params : Params) (duration : ℚ)
    (hcfg : mkConfig (env.world configPath) = .ok cfg)
    (hdec : env.decompose brief = .ok params)
    (hkeys : REQUIRED_DECOMPOSER_KEYS_FOR_PROMPT.filter (fun k => !hasKey params k) = [])
    (hdur : pyFloat (getParam params "duration" (.num cfg.defaultDuration)) = .ok duration)
    (hgen : ∀ pr d f, ∃ pth, env.generate pr d f cfg = .ok pth)
    (hproc : ∀ raw, ∃ r, env.process raw cfg.targetLufs cfg.outputFolder = .ok r ∧
      r.output_path ≠ none)
    (hlib : ∀ entries, ∃ s, env.addToLibrary brief entries cfg.libraryPath = .ok s) :
    (∀ v, getParam params "batch_influences" (.list (cfg.batchInfluences.map PyVal.num)) = v →
      ((∀ xs, v ≠ .list xs) → resolveInfluences params cfg = cfg.batchInfluences) ∧
      (v = .list [] → resolveInfluences params cfg = cfg.batchInfluences) ∧
      (∀ xs e, v = .list xs → floatList xs = .error e →
        resolveInfluences params cfg = cfg.batchInfluences) ∧
      (∀ xs fs, v = .list xs → xs ≠ [] → floatList xs = .ok fs →
        resolveInfluences params cfg = fs)) ∧
    ∃ paths tr, run_sfx_pipeline env brief configPath = .ok ((paths, []), tr) ∧
      paths.length = (resolveInfluences params cfg).length := by
  constructor
  · intro v hv
    refine ⟨?_, ?_, ?_, ?_⟩
    · intro hnl
      cases v with
      | list xs => exact absurd rfl (hnl xs)
      | str s => simp [resolveInfluences, hv, floatList_num]
      | num q => simp [resolveInfluences, hv, floatList_num]
      | bool b => simp [resolveInfluences, hv, floatList_num]
      | nullV => simp [resolveInfluences, hv, floatList_num]
      | map kvs => simp [resolveInfluences, hv, floatList_num]
    · rintro rfl
      simp [resolveInfluences, hv, floatList_num]
    · rintro xs e rfl hnone
      rcases xs with _ | ⟨a, t⟩
      · simp [resolveInfluences, hv, floatList_num]
      · simp [resolveInfluences, hv, hnone]
    · rintro xs fs rfl hne hsome
      rcases xs with _ | ⟨a, t⟩
      · exact absurd rfl hne
      · simp [resolveInfluences, hv, hsome]
  · have hvar : ∀ i : ℚ,
        (runVariation env cfg brief params duration i).err = none ∧
        ((runVariation env cfg brief params duration i).path).isSome = true ∧
        ((runVariation env cfg brief params duration i).entry).isSome = true := by
      intro i
      obtain ⟨s, hs⟩ := iterParams_compose_ok params duration i hkeys
      obtain ⟨pth, hp⟩ := hgen s duration i
      obtain ⟨r, hr, hro⟩ := hproc pth
      rcases ho : r.output_path with _ | op
      · exact absurd ho hro
      · refine ⟨?_, ?_, ?_⟩ <;>
          simp only [runVariation, hs, hp, hr, ho] <;> rfl
    have hkeysEmpty : (REQUIRED_DECOMPOSER_KEYS_FOR_PROMPT.filter
        (fun k => !hasKey params k)).isEmpty = true := by rw [hkeys]; rfl
    have herrs : (resolveInfluences params cfg).filterMap
        (fun i => (runVariation env cfg brief params duration i).err) = [] :=
      List.filterMap_eq_nil_iff.mpr (fun a _ => (hvar a).1)
    have hlen : ((resolveInfluences params cfg).filterMap
        (fun i => (runVariation env cfg brief params duration i).path)).length =
          (resolveInfluences params cfg).length :=
      length_filterMap_of_isSome _ _ (fun a _ => (hvar a).2.1)
    rcases hE : (resolveInfluences params cfg).filterMap
        (fun i => (runVariation env cfg brief params duration i).entry) with _ | ⟨e0, es⟩
    · refine ⟨(resolveInfluences params cfg).filterMap
          (fun i => (runVariation env cfg brief params duration i).path),
        [CallEv.decomposeCall brief] ++ (resolveInfluences params cfg).flatMap
          (fun i => (runVariation env cfg brief params duration i).events),
        ?_, hlen⟩
      simp only [run_sfx_pipeline, hcfg, runBody, hdec, hkeysEmpty, Bool.not_true,
        Bool.false_eq_true, if_false, hdur, runLoop_eq, hE, herrs, List.isEmpty_nil,
        if_true, List.append_nil, List.nil_append]
    · obtain ⟨s2, hs2⟩ := hlib (e0 :: es)
      refine ⟨(resolveInfluences params cfg).filterMap
          (fun i => (runVariation env cfg brief params duration i).path),
        [CallEv.decomposeCall brief] ++ ((resolveInfluences params cfg).flatMap
          (fun i => (runVariation env cfg brief params duration i).events) ++
          [CallEv.libraryCall brief (e0 :: es) cfg.libraryPath]),
        ?_, hlen⟩
      simp only [run_sfx_pipeline, hcfg, runBody, hdec, hkeysEmpty, Bool.not_true,
        Bool.false_eq_true, if_false, hdur, runLoop_eq, hE, herrs, hs2,
        List.isEmpty_cons, List.append_nil, List.nil_append, List.append_assoc]

/-- Decomposer output carrying an unconvertible `batch_influences` list. -/
def doorParamsC7 : Params :=
  doorParams ++ [("batch_influences", PyVal.list [PyVal.str "oops"])]

/-- Environment for the fallback scenario: decomposer supplies a bad
`batch_influences`, every collaborator succeeds. -/
def runEnvC7 : RunEnv :=
  { world := fun _ => .content goodYaml,
    decompose := fun _ => .ok doorParamsC7,
    generate := fun _ _ _ _ => .ok ⟨"raw", "r", ".wav"⟩,
    process := fun p _ _ => .ok (ppResultsFor p),
    addToLibrary := fun _ _ p => .ok p }

/-- Closed instance of C7: `batch_influences = ["oops"]` falls back to the
config default `[1, 2]`, with no error message. -/
theorem C7_batch_influences_fallback_witness :
    (∀ v, getParam doorParamsC7 "batch_influences"
        (.list (cfgGood.batchInfluences.map PyVal.num)) = v →
      ((∀ xs, v ≠ .list xs) →
        resolveInfluences doorParamsC7 cfgGood = cfgGood.batchInfluences) ∧
      (v = .list [] →
        resolveInfluences doorParamsC7 cfgGood = cfgGood.batchInfluences) ∧
      (∀ xs e, v = .list xs → floatList xs = .error e →
        resolveInfluences doorParamsC7 cfgGood = cfgGood.batchInfluences) ∧
      (∀ xs fs, v = .list xs → xs ≠ [] → floatList xs = .ok fs →
        resolveInfluences doorParamsC7 cfgGood = fs)) ∧
    ∃ paths tr, run_sfx_pipeline runEnvC7 "a door slam" "cfg.yml" =
        .ok ((paths, []), tr) ∧
      paths.length = (resolveInfluences doorParamsC7 cfgGood).length :=
  C7_batch_influences_fallback runEnvC7 cfgGood "a door slam" "cfg.yml"
    doorParamsC7 2 rfl rfl (by decide) rfl
    (fun pr d f => ⟨⟨"raw", "r", ".wav"⟩, rfl⟩)
    (fun raw => ⟨ppResultsFor raw, rfl, by simp [ppResultsFor]⟩)
    (fun entries => ⟨cfgGood.libraryPath, rfl⟩)

/-! ## C2 — per-variation failure isolation and single aggregation -/

/-- Under the real post-processor contract (a success dict always carries an
output path), every recorded per-variation error is one of the loop body's
handler messages for that influence. -/
theorem runVariation_err_shape (env : RunEnv) (cfg : Cfg) (brief : String)
    (params : Params) (duration i : ℚ)
    (hout : ∀ raw r, env.process raw cfg.targetLufs cfg.outputFolder = .ok r →
      r.output_path ≠ none)
    (m : String) (hm : (runVariation env cfg brief params duration i).err = some m) :
    ∃ raw e, m = variationErrMsg i raw e := by
  simp only [runVariation] at hm
  rcases hc : compose_prompt (setParam (setParam params "prompt_influence" (.num i))
      "duration" (.num duration)) with e | tp
  · simp only [hc] at hm
    exact ⟨none, e, (Option.some.injEq _ _).mp hm |>.symm⟩
  · simp only [hc] at hm
    rcases hg : env.generate tp duration i cfg with e | raw
    · simp only [hg] at hm
      exact ⟨none, e, (Option.some.injEq _ _).mp hm |>.symm⟩
    · simp only [hg] at hm
      rcases hp : env.process raw cfg.targetLufs cfg.outputFolder with e | res
      · simp only [hp] at hm
        exact ⟨some raw, e, (Option.some.injEq _ _).mp hm |>.symm⟩
      · rcases ho : res.output_path with _ | op
        · exact absurd ho (hout raw res hp)
        · simp only [hp, ho] at hm
          cases hm

/-- A variation either fully succeeds (success path and library record,
no error) or fails (no path, no record, exactly one error message). -/
theorem runVariation_dichotomy (env : RunEnv) (cfg : Cfg) (brief : String)
    (params : Params) (duration i : ℚ) :
    ((runVariation env cfg brief params duration i).path.isSome = true ∧
      (runVariation env cfg brief params duration i).err = none ∧
      (runVariation env cfg brief params duration i).entry.isSome = true) ∨
    ((runVariation env cfg brief params duration i).path = none ∧
      (∃ m, (runVariation env cfg brief params duration i).err = some m) ∧
      (runVariation env cfg brief params duration i).entry = none) := by
  unfold runVariation
  dsimp only
  split
  · exact Or.inr ⟨rfl, ⟨_, rfl⟩, rfl⟩
  · split
    · exact Or.inr ⟨rfl, ⟨_, rfl⟩, rfl⟩
    · split
      · exact Or.inr ⟨rfl, ⟨_, rfl⟩, rfl⟩
      · split
        · exact Or.inl ⟨rfl, rfl, rfl⟩
        · exact Or.inr ⟨rfl, ⟨_, rfl⟩, rfl⟩

/-- C2: any failure of composition, generation, or post-processing for one
influence appends exactly one error naming that influence and does not
prevent the remaining influences from being attempted; after all
variations, the library append is invoked exactly once, only if some
variation fully succeeded, and with exactly the successful records. -/
theorem C2_variation_isolation (env : RunEnv) (cfg : Cfg)
    (brief configPath : String) (params : Params) (duration : ℚ)
    (hcfg : mkConfig (env.world configPath) = .ok cfg)
    (hdec : env.decompose brief = .ok params)
    (hkeys : REQUIRED_DECOMPOSER_KEYS_FOR_PROMPT.filter (fun k => !hasKey params k) = [])
    (hdur : pyFloat (getParam params "duration" (.num cfg.defaultDuration)) = .ok duration)
    (hout : ∀ raw r, env.process raw cfg.targetLufs cfg.outputFolder = .ok r →
      r.output_path ≠ none) :
    (∀ i m, (runVariation env cfg brief params duration i).err = some m →
      strHasSub m (fmt2 i) = true) ∧
    (∀ i, ((runVariation env cfg brief params duration i).path.isSome = true ∧
        (runVariation env cfg brief params duration i).err = none ∧
        (runVariation env cfg brief params duration i).entry.isSome = true) ∨
      ((runVariation env cfg brief params duration i).path = none ∧
        (∃ m, (runVariation env cfg brief params duration i).err = some m) ∧
        (runVariation env cfg brief params duration i).entry = none)) ∧
    ∃ libErrs libEvs,
      run_sfx_pipeline env brief configPath = .ok
        (((resolveInfluences params cfg).filterMap
            (fun i => (runVariation env cfg brief params duration i).path),
          (resolveInfluences params cfg).filterMap
            (fun i => (runVariation env cfg brief params duration i).err) ++ libErrs),
         [CallEv.decomposeCall brief] ++ (resolveInfluences params cfg).flatMap
            (fun i => (runVariation env cfg brief params duration i).events) ++ libEvs) ∧
      ((resolveInfluences params cfg).filterMap
          (fun i => (runVariation env cfg brief params duration i).entry) = [] →
        libErrs = [] ∧ libEvs = []) ∧
      ((resolveInfluences params cfg).filterMap
          (fun i => (runVariation env cfg brief params duration i).entry) ≠ [] →
        libEvs = [CallEv.libraryCall brief ((resolveInfluences params cfg).filterMap
          (fun i => (runVariation env cfg brief params duration i).entry)) cfg.libraryPath] ∧
        ((∃ s, env.addToLibrary brief ((resolveInfluences params cfg).filterMap
            (fun i => (runVariation env cfg brief params duration i).entry))
              cfg.libraryPath = .ok s) → libErrs = [])) := by
  have hkeysEmpty : (REQUIRED_DECOMPOSER_KEYS_FOR_PROMPT.filter
      (fun k => !hasKey params k)).isEmpty = true := by rw [hkeys]; rfl
  refine ⟨?_, ?_, ?_⟩
  · intro i m hm
    obtain ⟨raw, e, rfl⟩ :=
      runVariation_err_shape env cfg brief params duration i hout m hm
    exact variationErrMsg_contains i raw e
  · intro i
    exact runVariation_dichotomy env cfg brief params duration i
  · rcases hE : (resolveInfluences params cfg).filterMap
        (fun i => (runVariation env cfg brief params duration i).entry) with _ | ⟨e0, es⟩
    · refine ⟨[], [], ?_, fun _ => ⟨rfl, rfl⟩, fun hne => absurd rfl hne⟩
      simp only [run_sfx_pipeline, hcfg, runBody, hdec, hkeysEmpty, Bool.not_true,
        Bool.false_eq_true, if_false, hdur, runLoop_eq, hE, List.isEmpty_nil,
        if_true, List.append_nil, List.nil_append]
    · rcases ha : env.addToLibrary brief (e0 :: es) cfg.libraryPath with e | s
      · refine ⟨["Failed to add results to library " ++ cfg.libraryPath ++ ": " ++ e.msg],
          [CallEv.libraryCall brief (e0 :: es) cfg.libraryPath], ?_, ?_, ?_⟩
        · simp only [run_sfx_pipeline, hcfg, runBody, hdec, hkeysEmpty, Bool.not_true,
            Bool.false_eq_true, if_false, hdur, runLoop_eq, hE, ha,
            List.isEmpty_cons, List.append_nil, List.nil_append, List.append_assoc]
        · intro h
          cases h
        · intro _
          refine ⟨rfl, ?_⟩
          rintro ⟨s, hs⟩
          cases hs
      · refine ⟨[], [CallEv.libraryCall brief (e0 :: es) cfg.libraryPath], ?_, ?_, ?_⟩
        · simp only [run_sfx_pipeline, hcfg, runBody, hdec, hkeysEmpty, Bool.not_true,
            Bool.false_eq_true, if_false, hdur, runLoop_eq, hE, ha,
            List.isEmpty_cons, List.append_nil, List.nil_append, List.append_assoc]
        · intro h
          cases h
        · intro _
          exact ⟨rfl, fun _ => rfl⟩

/-- Closed instance of C2: influences `[1, 2]` from the config default,
generator failing for influence 1 and succeeding for influence 2. -/
theorem C2_variation_isolation_witness :
    (∀ i m, (runVariation runEnvA cfgGood "a door slam" doorParams 2 i).err = some m →
      strHasSub m (fmt2 i) = true) ∧
    (∀ i, ((runVariation runEnvA cfgGood "a door slam" doorParams 2 i).path.isSome = true ∧
        (runVariation runEnvA cfgGood "a door slam" doorParams 2 i).err = none ∧
        (runVariation runEnvA cfgGood "a door slam" doorParams 2 i).entry.isSome = true) ∨
      ((runVariation runEnvA cfgGood "a door slam" doorParams 2 i).path = none ∧
        (∃ m, (runVariation runEnvA cfgGood "a door slam" doorParams 2 i).err = some m) ∧
        (runVariation runEnvA cfgGood "a door slam" doorParams 2 i).entry = none)) ∧
    ∃ libErrs libEvs,
      run_sfx_pipeline runEnvA "a door slam" "cfg.yml" = .ok
        (((resolveInfluences doorParams cfgGood).filterMap
            (fun i => (runVariation runEnvA cfgGood "a door slam" doorParams 2 i).path),
          (resolveInfluences doorParams cfgGood).filterMap
            (fun i => (runVariation runEnvA cfgGood "a door slam" doorParams 2 i).err) ++ libErrs),
         [CallEv.decomposeCall "a door slam"] ++ (resolveInfluences doorParams cfgGood).flatMap
            (fun i => (runVariation runEnvA cfgGood "a door slam" doorParams 2 i).events) ++ libEvs) ∧
      ((resolveInfluences doorParams cfgGood).filterMap
          (fun i => (runVariation runEnvA cfgGood "a door slam" doorParams 2 i).entry) = [] →
        libErrs = [] ∧ libEvs = []) ∧
      ((resolveInfluences doorParams cfgGood).filterMap
          (fun i => (runVariation runEnvA cfgGood "a door slam" doorParams 2 i).entry) ≠ [] →
        libEvs = [CallEv.libraryCall "a door slam"
          ((resolveInfluences doorParams cfgGood).filterMap
            (fun i => (runVariation runEnvA cfgGood "a door slam" doorParams 2 i).entry))
          cfgGood.libraryPath] ∧
        ((∃ s, runEnvA.addToLibrary "a door slam"
            ((resolveInfluences doorParams cfgGood).filterMap
              (fun i => (runVariation runEnvA cfgGood "a door slam" doorParams 2 i).entry))
            cfgGood.libraryPath = .ok s) → libErrs = [])) :=
  C2_variation_isolation runEnvA cfgGood "a door slam" "cfg.yml" doorParams 2
    rfl rfl (by decide) rfl
    (fun raw r h => by
      simp only [runEnvA] at h
      injection h with h2
      subst h2
      simp [ppResultsFor])

/-! ## C5 — configuration failure handling -/

/-- A syntactically valid config whose `prompt_influence` has a bad type:
handled, becomes a `ConfigError`. -/
def badYamlWrongType : PyVal := .map
  [("elevenlabs", .map [("voice", .str "v"), ("model", .str "m")]),
   ("gemma", .map [("model", .str "g")]),
   ("output", .map [("folder", .str "out"), ("file_format", .str "wav")]),
   ("prompt", .map [("default_duration", .num 2), ("prompt_influence", .str "oops"),
      ("batch_influences", .list [.num 1, .num 2])]),
   ("processing", .map [("target_lufs", .num (-18))]),
   ("library", .map [("path", .str "lib.yml")]),
   ("logging", .map [("level", .str "INFO")])]

/-- A config file whose YAML content is the bare scalar `5`. -/
def runEnvC5 : RunEnv := { runEnvA with world := fun _ => .content (.num 5) }

def runEnvC5missing : RunEnv := { runEnvA with world := fun _ => .missing }

def runEnvC5bad : RunEnv := { runEnvA with world := fun _ => .content badYamlWrongType }

/-- C5 (code bug exhibit): a missing config file and a wrong-typed config
value are caught and returned as the run's single error message, but a
config file whose YAML top level is the scalar `5` makes `_validate` run
`"elevenlabs" in 5`, raising a `TypeError` outside every handler —
`run_sfx_pipeline` raises instead of returning its `(successes, errors)`
pair, contradicting both the spec and `Config.__init__`'s documented
`FileNotFoundError`/`ConfigError`-only contract. -/
theorem C5_scalar_config_raises :
    run_sfx_pipeline runEnvC5 "a door slam" "cfg.yml" =
      .error (.typeError "argument of type is not iterable") ∧
    PyExc.tag (.typeError "argument of type is not iterable") ≠ "ConfigError" ∧
    PyExc.tag (.typeError "argument of type is not iterable") ≠ "FileNotFoundError" ∧
    run_sfx_pipeline runEnvC5missing "a door slam" "cfg.yml" =
      .ok (([], ["Configuration error: Config file not found"]), []) ∧
    run_sfx_pipeline runEnvC5bad "a door slam" "cfg.yml" =
      .ok (([], ["Configuration error: Invalid numeric value in config: could not convert string to float: 'oops'"]),
        []) :=
  ⟨rfl, by decide, by decide, rfl, rfl⟩

end SfxAgent
